import Mathlib

/-!
# VizArch — verification of the frontend lab store and display logic

Shallow embedding of the VizArch frontend state store
(`src/frontend/store/labStore.ts`), the component palette catalog
(`src/frontend/components/ui/ComponentPalette.tsx`), the cost display
logic (StatusBar and `ResultsPanel.tsx`), and a model of the simulation
engine described in the specification (the backend source is not part of
this tree).

JavaScript numbers that only flow through the store are modelled as `ℚ`,
strings as `String`, arrays as `List`, and `null` as `Option`.  The
zustand `set` callback merges a partial update into the state; each store
operation below is the corresponding total function on the whole state.
-/

/-- The `ComponentType` union from the frontend type declarations. -/
inductive ComponentType where
  | lambda | s3 | dynamodb | cloudfront | api_gateway | amplify | rds
  | elasticache | sqs | sns | load_balancer
  | vpc | subnet | security_group | nat_gateway | internet_gateway
  | compute_node | database | cache | message_queue
  deriving DecidableEq, Repr

/-- The `SimulationGoal` union from the frontend type declarations. -/
inductive SimulationGoal where
  | low_latency | high_availability | low_cost
  deriving DecidableEq, Repr

/-- A 3-D position `{x, y, z}`. -/
structure Position where
  x : ℚ
  y : ℚ
  z : ℚ
  deriving DecidableEq, Repr

/-- `InfrastructureComponent` from the frontend type declarations.  The
`configuration` bag (`Record<string, any>`) is modelled as an association
list of strings; the store only ever creates it empty and passes it
through. -/
structure InfrastructureComponent where
  id : String
  type : ComponentType
  configuration : List (String × String)
  position : Option Position
  deriving DecidableEq, Repr

/-- `SimulationResult` from the frontend type declarations. -/
structure SimulationResult where
  estimated_latency_ms : ℚ
  scalability_score : ℚ
  cost_index : ℚ
  explanation : String
  deriving DecidableEq, Repr

/-- One entry of the store's `resultsHistory`. -/
structure HistoryEntry where
  result : SimulationResult
  timestamp : ℕ
  componentCount : ℕ
  deriving DecidableEq, Repr

/-- The state managed by `useLabStore`, together with the module-level
mutable `componentCounter` from `labStore.ts` (it lives outside the
zustand store in the source but is part of the same mutable world). -/
structure LabState where
  components : List InfrastructureComponent
  connections : List (String × String)
  goal : SimulationGoal
  simulationResult : Option SimulationResult
  resultsHistory : List HistoryEntry
  isSimulating : Bool
  selectedComponentId : Option String
  isDraggingComponent : Bool
  useCase : String
  componentCounter : ℕ
  deriving DecidableEq, Repr

/-- The initial store state (`create<LabStore>` literal plus
`componentCounter = 0`). -/
def initialState : LabState :=
  { components := []
    connections := []
    goal := SimulationGoal.low_latency
    simulationResult := none
    resultsHistory := []
    isSimulating := false
    selectedComponentId := none
    isDraggingComponent := false
    useCase := ""
    componentCounter := 0 }

/-- The string literal of a `ComponentType`, as it appears in the id
template `` `${type}-${Date.now()}-${componentCounter}` ``. -/
def typeStr : ComponentType → String
  | ComponentType.lambda => "lambda"
  | ComponentType.s3 => "s3"
  | ComponentType.dynamodb => "dynamodb"
  | ComponentType.cloudfront => "cloudfront"
  | ComponentType.api_gateway => "api_gateway"
  | ComponentType.amplify => "amplify"
  | ComponentType.rds => "rds"
  | ComponentType.elasticache => "elasticache"
  | ComponentType.sqs => "sqs"
  | ComponentType.sns => "sns"
  | ComponentType.load_balancer => "load_balancer"
  | ComponentType.vpc => "vpc"
  | ComponentType.subnet => "subnet"
  | ComponentType.security_group => "security_group"
  | ComponentType.nat_gateway => "nat_gateway"
  | ComponentType.internet_gateway => "internet_gateway"
  | ComponentType.compute_node => "compute_node"
  | ComponentType.database => "database"
  | ComponentType.cache => "cache"
  | ComponentType.message_queue => "message_queue"

/-- The decimal digit character for `d < 10` (JavaScript number
stringification produces decimal digits). -/
def digitChar (d : ℕ) : Char := Char.ofNat (48 + d)

/-- Decimal representation of a natural number as a character list,
modelling JavaScript template interpolation of a non-negative number. -/
def natChars (n : ℕ) : List Char :=
  if h : n < 10 then [digitChar n]
  else natChars (n / 10) ++ [digitChar (n % 10)]
  termination_by n
  decreasing_by
    exact Nat.div_lt_self (by omega) (by omega)

/-- Decimal string of a natural number. -/
def natStr (n : ℕ) : String := String.mk (natChars n)

/-- The id template `` `${type}-${Date.now()}-${componentCounter}` `` of
`addComponent`; `now` stands for the `Date.now()` value at the call. -/
def mkId (type : ComponentType) (now ctr : ℕ) : String :=
  typeStr type ++ "-" ++ natStr now ++ "-" ++ natStr ctr

/-- `addComponent` from `labStore.ts`: pre-increments the module-level
counter, then appends a fresh component whose id embeds the incremented
counter. -/
def addComponent (type : ComponentType) (position : Position) (now : ℕ)
    (s : LabState) : LabState :=
  let ctr := s.componentCounter + 1
  { s with
    componentCounter := ctr
    components := s.components ++
      [{ id := mkId type now ctr
         type := type
         configuration := []
         position := some position }] }

/-- `removeComponent` from `labStore.ts`: filters the component out,
filters out every connection touching it, and clears the selection when
the removed component was selected. -/
def removeComponent (id : String) (s : LabState) : LabState :=
  { s with
    components := s.components.filter (fun c => c.id != id)
    connections := s.connections.filter (fun p => p.1 != id && p.2 != id)
    selectedComponentId :=
      if s.selectedComponentId = some id then none else s.selectedComponentId }

/-- `updateComponentPosition` from `labStore.ts`. -/
def updateComponentPosition (id : String) (position : Position)
    (s : LabState) : LabState :=
  { s with
    components := s.components.map
      (fun c => if c.id = id then { c with position := some position } else c) }

/-- `addConnection` from `labStore.ts`: appends the ordered pair unless a
pair with the same direction is already present (`exists` check). -/
def addConnection (fromId toId : String) (s : LabState) : LabState :=
  if s.connections.any (fun p => p.1 == fromId && p.2 == toId) then s
  else { s with connections := s.connections ++ [(fromId, toId)] }

/-- `removeConnection` from `labStore.ts`. -/
def removeConnection (fromId toId : String) (s : LabState) : LabState :=
  { s with
    connections :=
      s.connections.filter (fun p => !(p.1 == fromId && p.2 == toId)) }

/-- `setGoal` from `labStore.ts`. -/
def setGoal (goal : SimulationGoal) (s : LabState) : LabState :=
  { s with goal := goal }

/-- `setSimulationResult` from `labStore.ts`: a non-null result is stored
and an entry for it is prepended to the history, which is truncated to
its first five entries; a null result only clears the stored result.
`now` stands for the `Date.now()` value at the call. -/
def setSimulationResult (result : Option SimulationResult) (now : ℕ)
    (s : LabState) : LabState :=
  match result with
  | some r =>
    { s with
      simulationResult := some r
      resultsHistory :=
        (({ result := r
            timestamp := now
            componentCount := s.components.length } : HistoryEntry)
          :: s.resultsHistory).take 5 }
  | none => { s with simulationResult := none }

/-- `setIsSimulating` from `labStore.ts`. -/
def setIsSimulating (b : Bool) (s : LabState) : LabState :=
  { s with isSimulating := b }

/-- `setSelectedComponentId` from `labStore.ts`. -/
def setSelectedComponentId (id : Option String) (s : LabState) : LabState :=
  { s with selectedComponentId := id }

/-- `setIsDraggingComponent` from `labStore.ts`. -/
def setIsDraggingComponent (b : Bool) (s : LabState) : LabState :=
  { s with isDraggingComponent := b }

/-- `setUseCase` from `labStore.ts`. -/
def setUseCase (u : String) (s : LabState) : LabState :=
  { s with useCase := u }

/-- `handleComponentClick` from `labStore.ts`.  The source guards with
`!state.selectedComponentId`, which in JavaScript is true for `null` and
for the empty string, so the empty-string selection falls into the
"select this one" branch; afterwards the selection is a string and is
compared to the clicked id.  The duplicate check rejects the pair in
either direction. -/
def handleComponentClick (id : String) (s : LabState) : LabState :=
  match s.selectedComponentId with
  | none => { s with selectedComponentId := some id }
  | some sel =>
    if sel = "" then { s with selectedComponentId := some id }
    else if sel = id then { s with selectedComponentId := none }
    else if s.connections.any
        (fun p => (p.1 == sel && p.2 == id) || (p.1 == id && p.2 == sel)) then
      { s with selectedComponentId := none }
    else
      { s with
        connections := s.connections ++ [(sel, id)]
        selectedComponentId := none }

/-- `clearLab` from `labStore.ts`: zustand merges the four listed fields
into the state, leaving every other field as it was. -/
def clearLab (s : LabState) : LabState :=
  { s with
    components := []
    connections := []
    simulationResult := none
    selectedComponentId := none }

/-! ## Helper lemmas -/

/-- The `exists`-style scan of `addConnection` is exactly membership of
the ordered pair. -/
theorem any_pair_mem (l : List (String × String)) (f t : String) :
    (l.any (fun p => p.1 == f && p.2 == t) = true) ↔ (f, t) ∈ l := by
  simp [List.any_eq_true, Prod.ext_iff]

/-- The bidirectional scan of `handleComponentClick` is membership of the
pair in either direction. -/
theorem any_pair_mem_either (l : List (String × String)) (f t : String) :
    (l.any (fun p => (p.1 == f && p.2 == t) || (p.1 == t && p.2 == f)) = true)
      ↔ ((f, t) ∈ l ∨ (t, f) ∈ l) := by
  constructor
  · intro h
    rcases List.any_eq_true.mp h with ⟨p, hp, hcase⟩
    rcases Bool.or_eq_true _ _ |>.mp hcase with hd | hr
    · left
      have h1 : p.1 = f := by simpa using (Bool.and_eq_true _ _ |>.mp hd).1
      have h2 : p.2 = t := by simpa using (Bool.and_eq_true _ _ |>.mp hd).2
      have : p = (f, t) := Prod.ext h1 h2
      exact this ▸ hp
    · right
      have h1 : p.1 = t := by simpa using (Bool.and_eq_true _ _ |>.mp hr).1
      have h2 : p.2 = f := by simpa using (Bool.and_eq_true _ _ |>.mp hr).2
      have : p = (t, f) := Prod.ext h1 h2
      exact this ▸ hp
  · intro h
    rcases h with h | h
    · exact List.any_eq_true.mpr ⟨(f, t), h, by simp⟩
    · exact List.any_eq_true.mpr ⟨(t, f), h, by simp⟩

/-! ## C3 — duplicate connections are idempotent -/

/-- C3: if the ordered pair `(fromId, toId)` is already in the
connections list, `addConnection fromId toId` returns the state
unchanged — the repeated connection is never added a second time. -/
theorem addConnection_duplicate_idempotent (s : LabState) (fromId toId : String)
    (h : (fromId, toId) ∈ s.connections) :
    addConnection fromId toId s = s := by
  have hc : s.connections.any (fun p => p.1 == fromId && p.2 == toId) = true :=
    (any_pair_mem s.connections fromId toId).mpr h
  simp [addConnection, hc]

/-- A concrete store state holding the connection `("a", "b")`. -/
def dupState : LabState := { initialState with connections := [("a", "b")] }

/-- Witness for C3 at a concrete state: re-adding `("a", "b")` leaves the
state unchanged. -/
theorem addConnection_duplicate_idempotent_witness :
    addConnection "a" "b" dupState = dupState :=
  addConnection_duplicate_idempotent dupState "a" "b" (by decide)

/-! ## C5 — connection order is preserved -/

/-- C5: `addConnection` appends at the end (or leaves the list unchanged
on a duplicate), and `removeConnection` and `removeComponent` produce
sublists of the previous connections list, so the relative order of the
surviving connections is never permuted. -/
theorem connection_order_preserved (s : LabState) (fromId toId id : String) :
    ((addConnection fromId toId s).connections =
      if (fromId, toId) ∈ s.connections then s.connections
      else s.connections ++ [(fromId, toId)]) ∧
    List.Sublist (removeConnection fromId toId s).connections s.connections ∧
    List.Sublist (removeComponent id s).connections s.connections := by
  refine ⟨?_, List.filter_sublist _, List.filter_sublist _⟩
  by_cases h : (fromId, toId) ∈ s.connections
  · have hc : s.connections.any (fun p => p.1 == fromId && p.2 == toId) = true :=
      (any_pair_mem s.connections fromId toId).mpr h
    simp [addConnection, hc, h]
  · have hc : s.connections.any (fun p => p.1 == fromId && p.2 == toId) = false := by
      rw [← Bool.not_eq_true]
      intro hx
      exact h ((any_pair_mem s.connections fromId toId).mp hx)
    simp [addConnection, hc, h]

/-! ## C8 — results history is bounded at five, newest first -/

/-- C8: `setSimulationResult` with a non-null result prepends the new
entry and truncates the history to its first five entries (so the
history never exceeds five entries and is ordered newest first), while a
null result leaves the history unchanged. -/
theorem results_history_bounded (r : SimulationResult) (now : ℕ) (s : LabState) :
    (setSimulationResult (some r) now s =
      { s with
        simulationResult := some r
        resultsHistory :=
          (({ result := r
              timestamp := now
              componentCount := s.components.length } : HistoryEntry)
            :: s.resultsHistory).take 5 }) ∧
    (setSimulationResult none now s = { s with simulationResult := none }) ∧
    (setSimulationResult (some r) now s).resultsHistory.length ≤ 5 ∧
    (setSimulationResult (some r) now s).resultsHistory.head? =
      some { result := r
             timestamp := now
             componentCount := s.components.length } := by
  refine ⟨rfl, rfl, ?_, ?_⟩
  · simp only [setSimulationResult, List.length_take]
    omega
  · rfl

/-! ## C10 — clearLab resets exactly four fields -/

/-- C10: `clearLab` resets the components, connections, simulation
result and selection, and leaves the goal, use case, results history,
simulating flag, dragging flag and the component counter untouched. -/
theorem clearLab_frame (s : LabState) :
    (clearLab s).components = [] ∧
    (clearLab s).connections = [] ∧
    (clearLab s).simulationResult = none ∧
    (clearLab s).selectedComponentId = none ∧
    (clearLab s).goal = s.goal ∧
    (clearLab s).useCase = s.useCase ∧
    (clearLab s).resultsHistory = s.resultsHistory ∧
    (clearLab s).isSimulating = s.isSimulating ∧
    (clearLab s).isDraggingComponent = s.isDraggingComponent ∧
    (clearLab s).componentCounter = s.componentCounter :=
  ⟨rfl, rfl, rfl, rfl, rfl, rfl, rfl, rfl, rfl, rfl⟩

/-! ## Display logic — StatusBar and ResultsPanel -/

/-- `Math.round`: round half toward positive infinity. -/
def jsRound (q : ℚ) : ℤ := Rat.floor (q + 1 / 2)

/-- The `estimatedCost` string of the StatusBar component: the source
guards with `simulationResult && simulationResult.cost_index`, so a
missing result — and, `0` being falsy in JavaScript, a zero cost index —
renders the placeholder instead of a dollar figure. -/
def statusBarEstimatedCost (simResult : Option SimulationResult) : String :=
  match simResult with
  | some r =>
    if r.cost_index = 0 then "Run simulation"
    else "$" ++ toString (jsRound (r.cost_index * (5 / 2))) ++ "/mo"
  | none => "Run simulation"

/-- The monthly estimate line of `ResultsPanel.tsx`:
`~${Math.round(simulationResult.cost_index * 2.5)}/month`. -/
def resultsPanelMonthly (r : SimulationResult) : String :=
  "~$" ++ toString (jsRound (r.cost_index * (5 / 2))) ++ "/month"

/-! ## C4 — the dollar estimate is cost_index × 2.5 -/

/-- A displayable simulation result whose cost index is zero. -/
def zeroCostResult : SimulationResult :=
  { estimated_latency_ms := 0
    scalability_score := 100
    cost_index := 0
    explanation := "ok" }

/-- C4 counterexample: with a simulation result of cost index `0`
displayed, the status bar does not show the dollar amount
`round(cost_index × 2.5)` — it shows the "Run simulation" placeholder,
because `0` is falsy in the source's guard. -/
theorem statusBar_zero_cost_counterexample :
    ¬ (statusBarEstimatedCost (some zeroCostResult) =
        "$" ++ toString (jsRound (zeroCostResult.cost_index * (5 / 2))) ++ "/mo") := by
  decide

/-- C4 (amended): the results panel always shows
`~$round(cost_index × 2.5)/month` for a displayed result; the status bar
shows `$round(cost_index × 2.5)/mo` whenever the displayed result's cost
index is nonzero, shows the "Run simulation" placeholder when the cost
index is zero (zero is falsy in the source's guard), and shows the
placeholder with no result. -/
theorem monthly_cost_display (r : SimulationResult) :
    resultsPanelMonthly r =
      "~$" ++ toString (jsRound (r.cost_index * (5 / 2))) ++ "/month" ∧
    (r.cost_index ≠ 0 →
      statusBarEstimatedCost (some r) =
        "$" ++ toString (jsRound (r.cost_index * (5 / 2))) ++ "/mo") ∧
    (r.cost_index = 0 → statusBarEstimatedCost (some r) = "Run simulation") ∧
    statusBarEstimatedCost none = "Run simulation" := by
  refine ⟨rfl, ?_, ?_, rfl⟩
  · intro h
    simp [statusBarEstimatedCost, h]
  · intro h
    simp [statusBarEstimatedCost, h]

/-- A displayable simulation result with cost index `40`. -/
def fortyCostResult : SimulationResult :=
  { estimated_latency_ms := 12
    scalability_score := 80
    cost_index := 40
    explanation := "ok" }

/-- Witness for the amended C4: the dollar figure at cost index `40`
and the placeholder at cost index `0`. -/
theorem monthly_cost_display_witness :
    statusBarEstimatedCost (some fortyCostResult) =
      "$" ++ toString (jsRound (fortyCostResult.cost_index * (5 / 2))) ++ "/mo" ∧
    statusBarEstimatedCost (some zeroCostResult) = "Run simulation" :=
  ⟨(monthly_cost_display fortyCostResult).2.1 (by decide),
   (monthly_cost_display zeroCostResult).2.2.1 (by decide)⟩

/-! ## The component palette catalog -/

/-- One entry of the `componentTypes` table in `ComponentPalette.tsx`
(the `icon` React element is presentation-only and omitted). -/
structure ComponentInfo where
  type : ComponentType
  label : String
  color : String
  cost : String
  latency : String
  description : String
  deriving DecidableEq, Repr

/-- The `componentTypes` table of `ComponentPalette.tsx`, entry for
entry. -/
def componentTypes : List ComponentInfo :=
  [ { type := ComponentType.lambda, label := "Lambda", color := "#ff9500",
      cost := "~$5/mo", latency := "15ms", description := "Serverless compute" },
    { type := ComponentType.s3, label := "S3", color := "#569a31",
      cost := "~$3/mo", latency := "10ms", description := "Object storage" },
    { type := ComponentType.dynamodb, label := "DynamoDB", color := "#4053d6",
      cost := "~$8/mo", latency := "8ms", description := "NoSQL database" },
    { type := ComponentType.cloudfront, label := "CloudFront", color := "#8c4fff",
      cost := "~$10/mo", latency := "5ms", description := "CDN service" },
    { type := ComponentType.api_gateway, label := "API Gateway", color := "#ff4f81",
      cost := "~$5/mo", latency := "12ms", description := "API management" },
    { type := ComponentType.amplify, label := "Amplify", color := "#ff9900",
      cost := "~$15/mo", latency := "8ms", description := "Full-stack hosting" },
    { type := ComponentType.rds, label := "RDS", color := "#3b48cc",
      cost := "~$120/mo", latency := "20ms", description := "Relational database" },
    { type := ComponentType.elasticache, label := "ElastiCache", color := "#d32f2f",
      cost := "~$50/mo", latency := "3ms", description := "In-memory cache" },
    { type := ComponentType.sqs, label := "SQS", color := "#d13212",
      cost := "~$3/mo", latency := "10ms", description := "Message queue" },
    { type := ComponentType.sns, label := "SNS", color := "#ff4785",
      cost := "~$3/mo", latency := "8ms", description := "Notification service" },
    { type := ComponentType.load_balancer, label := "ALB", color := "#ff6b35",
      cost := "~$20/mo", latency := "5ms", description := "Load balancing" },
    { type := ComponentType.compute_node, label := "EC2", color := "#4ecdc4",
      cost := "~$40/mo", latency := "2ms", description := "Virtual server" },
    { type := ComponentType.vpc, label := "VPC", color := "#2e7d32",
      cost := "Free", latency := "0ms", description := "Virtual network" },
    { type := ComponentType.subnet, label := "Subnet", color := "#558b2f",
      cost := "Free", latency := "0ms", description := "Network segment" },
    { type := ComponentType.security_group, label := "SecGroup", color := "#ffa726",
      cost := "Free", latency := "0ms", description := "Firewall rules" },
    { type := ComponentType.nat_gateway, label := "NAT GW", color := "#5c6bc0",
      cost := "~$35/mo", latency := "5ms", description := "Outbound gateway" },
    { type := ComponentType.internet_gateway, label := "IGW", color := "#26a69a",
      cost := "Free", latency := "3ms", description := "Internet gateway" } ]

/-- All constructors of the declared `ComponentType` union. -/
def allComponentTypes : List ComponentType :=
  [ ComponentType.lambda, ComponentType.s3, ComponentType.dynamodb,
    ComponentType.cloudfront, ComponentType.api_gateway, ComponentType.amplify,
    ComponentType.rds, ComponentType.elasticache, ComponentType.sqs,
    ComponentType.sns, ComponentType.load_balancer, ComponentType.vpc,
    ComponentType.subnet, ComponentType.security_group,
    ComponentType.nat_gateway, ComponentType.internet_gateway,
    ComponentType.compute_node, ComponentType.database, ComponentType.cache,
    ComponentType.message_queue ]

/-- `allComponentTypes` really enumerates the whole union. -/
theorem allComponentTypes_complete (t : ComponentType) :
    t ∈ allComponentTypes := by
  cases t <;> decide

/-! ## C7 — the palette catalog is a fixed table of 17 distinct kinds -/

/-- C7: the palette table has exactly 17 entries, its kinds are pairwise
distinct, and every kind is one of the declared `ComponentType`
constructors.  Being a module-level constant of the embedding, the table
is immutable by construction, matching the never-mutated-at-runtime
clause. -/
theorem catalog_fixed_seventeen :
    componentTypes.length = 17 ∧
    (componentTypes.map (fun c => c.type)).Nodup ∧
    ∀ c ∈ componentTypes, c.type ∈ allComponentTypes := by
  decide

/-! ## C1 — connection endpoints resolve to components -/

/-- The graph invariant: every connection endpoint is the id of a
component currently in the store. -/
def connectionsResolve (s : LabState) : Prop :=
  ∀ p ∈ s.connections,
    (∃ c ∈ s.components, c.id = p.1) ∧ (∃ c ∈ s.components, c.id = p.2)

instance (s : LabState) : Decidable (connectionsResolve s) := by
  unfold connectionsResolve
  infer_instance

/-- C1 counterexample: the invariant holds in the initial (empty) store,
yet `addConnection "a" "b"` — a lab-store operation — produces a state
violating it, because `addConnection` never checks its endpoints against
the component list.  So not every lab-store operation preserves the
invariant. -/
theorem dangling_connection_counterexample :
    connectionsResolve initialState ∧
    ¬ connectionsResolve (addConnection "a" "b" initialState) := by
  constructor
  · intro p hp
    simp [initialState] at hp
  · intro h
    have := h ("a", "b") (by decide)
    rcases this.1 with ⟨c, hc, _⟩
    simp [addConnection, initialState] at hc

/-- C1 (amended): `removeComponent` preserves the invariant
unconditionally and removes every connection incident to the removed id;
`addConnection` and `handleComponentClick` preserve it provided the
connection endpoints they may introduce (their arguments and the current
selection) are ids of components in the store; `addComponent`,
`removeConnection` and `clearLab` preserve it unconditionally.  Without
the endpoint proviso, `addConnection` can break the invariant. -/
theorem connection_endpoints_resolve
    (s : LabState) (rid fromId toId cid : String)
    (t : ComponentType) (pos : Position) (now : ℕ) :
    (connectionsResolve s → connectionsResolve (removeComponent rid s)) ∧
    (∀ p ∈ (removeComponent rid s).connections, p.1 ≠ rid ∧ p.2 ≠ rid) ∧
    (connectionsResolve s →
      (∃ c ∈ s.components, c.id = fromId) →
      (∃ c ∈ s.components, c.id = toId) →
      connectionsResolve (addConnection fromId toId s)) ∧
    (connectionsResolve s →
      (∃ c ∈ s.components, c.id = cid) →
      (∀ sel, s.selectedComponentId = some sel → ∃ c ∈ s.components, c.id = sel) →
      connectionsResolve (handleComponentClick cid s)) ∧
    (connectionsResolve s → connectionsResolve (addComponent t pos now s)) ∧
    (connectionsResolve s → connectionsResolve (removeConnection fromId toId s)) ∧
    connectionsResolve (clearLab s) := by
  refine ⟨?_, ?_, ?_, ?_, ?_, ?_, ?_⟩
  · -- removeComponent preserves the invariant
    intro h p hp
    obtain ⟨hmem, hpred⟩ := List.mem_filter.mp hp
    have hne : p.1 ≠ rid ∧ p.2 ≠ rid := by simpa using hpred
    obtain ⟨⟨c1, hc1, hid1⟩, ⟨c2, hc2, hid2⟩⟩ := h p hmem
    refine ⟨⟨c1, List.mem_filter.mpr ⟨hc1, ?_⟩, hid1⟩,
            ⟨c2, List.mem_filter.mpr ⟨hc2, ?_⟩, hid2⟩⟩
    · simpa [hid1] using hne.1
    · simpa [hid2] using hne.2
  · -- removeComponent removes every incident connection
    intro p hp
    have hpred := (List.mem_filter.mp hp).2
    simpa using hpred
  · -- addConnection with resolving endpoints
    intro h h1 h2
    unfold addConnection
    by_cases hc : s.connections.any (fun p => p.1 == fromId && p.2 == toId) = true
    · rw [if_pos hc]; exact h
    · rw [if_neg hc]
      intro p hp
      rcases List.mem_append.mp hp with hold | hnew
      · exact h p hold
      · have hpe : p = (fromId, toId) := by simpa using hnew
        subst hpe
        exact ⟨h1, h2⟩
  · -- handleComponentClick with resolving endpoints
    intro h hcid hsel
    unfold handleComponentClick
    cases hselv : s.selectedComponentId with
    | none => exact h
    | some sel =>
      dsimp only
      by_cases he : sel = ""
      · rw [if_pos he]; exact h
      · rw [if_neg he]
        by_cases hei : sel = cid
        · rw [if_pos hei]; exact h
        · rw [if_neg hei]
          by_cases hex : s.connections.any
              (fun p => (p.1 == sel && p.2 == cid) || (p.1 == cid && p.2 == sel)) = true
          · rw [if_pos hex]; exact h
          · rw [if_neg hex]
            intro p hp
            rcases List.mem_append.mp hp with hold | hnew
            · exact h p hold
            · have hpe : p = (sel, cid) := by simpa using hnew
              subst hpe
              exact ⟨hsel sel hselv, hcid⟩
  · -- addComponent preserves the invariant
    intro h p hp
    obtain ⟨⟨c1, hc1, hid1⟩, ⟨c2, hc2, hid2⟩⟩ := h p hp
    exact ⟨⟨c1, List.mem_append.mpr (Or.inl hc1), hid1⟩,
           ⟨c2, List.mem_append.mpr (Or.inl hc2), hid2⟩⟩
  · -- removeConnection preserves the invariant
    intro h p hp
    exact h p (List.mem_filter.mp hp).1
  · -- clearLab trivially restores the invariant
    intro p hp
    simp [clearLab] at hp

/-- A store state holding two components `x` and `y` and no
connections. -/
def twoCompState : LabState :=
  { initialState with
    components :=
      [ { id := "x", type := ComponentType.lambda, configuration := [],
          position := none },
        { id := "y", type := ComponentType.s3, configuration := [],
          position := none } ] }

/-- Witness for the amended C1: connecting the two existing components
keeps every endpoint resolvable. -/
theorem connection_endpoints_resolve_witness :
    connectionsResolve (addConnection "x" "y" twoCompState) :=
  (connection_endpoints_resolve twoCompState "z" "x" "y" "x"
      ComponentType.lambda { x := 0, y := 0, z := 0 } 0).2.2.1
    (by decide) (by decide) (by decide)

/-! ## C9 — handleComponentClick case analysis -/

/-- C9: with no selection, clicking selects the id; clicking the
selected component deselects; clicking a different component appends the
connection `(selected, id)` exactly when neither it nor its reverse is
already present — unlike `addConnection`, the duplicate scan here also
rejects the reversed pair — and every branch with a prior (non-empty)
selection ends with the selection cleared. -/
theorem handleComponentClick_cases (s : LabState) (cid : String) :
    (s.selectedComponentId = none →
      handleComponentClick cid s = { s with selectedComponentId := some cid }) ∧
    (∀ sel, s.selectedComponentId = some sel → sel ≠ "" →
      (sel = cid →
        handleComponentClick cid s = { s with selectedComponentId := none }) ∧
      (sel ≠ cid →
        ((sel, cid) ∉ s.connections → (cid, sel) ∉ s.connections →
          handleComponentClick cid s =
            { s with
              connections := s.connections ++ [(sel, cid)]
              selectedComponentId := none }) ∧
        (((sel, cid) ∈ s.connections ∨ (cid, sel) ∈ s.connections) →
          handleComponentClick cid s = { s with selectedComponentId := none }))) := by
  constructor
  · intro h
    unfold handleComponentClick
    rw [h]
  · intro sel hsel hne
    constructor
    · intro heq
      unfold handleComponentClick
      rw [hsel]
      dsimp only
      rw [if_neg hne, if_pos heq]
    · intro hnei
      constructor
      · intro hno1 hno2
        have hex : ¬ (s.connections.any
            (fun p => (p.1 == sel && p.2 == cid) || (p.1 == cid && p.2 == sel)) = true) := by
          intro hx
          rcases (any_pair_mem_either s.connections sel cid).mp hx with hm | hm
          · exact hno1 hm
          · exact hno2 hm
        unfold handleComponentClick
        rw [hsel]
        dsimp only
        rw [if_neg hne, if_neg hnei, if_neg hex]
      · intro hdup
        have hex : s.connections.any
            (fun p => (p.1 == sel && p.2 == cid) || (p.1 == cid && p.2 == sel)) = true :=
          (any_pair_mem_either s.connections sel cid).mpr hdup
        unfold handleComponentClick
        rw [hsel]
        dsimp only
        rw [if_neg hne, if_neg hnei, if_pos hex]

/-- A store state with the connection `("b", "a")` present and component
`a` selected. -/
def clickState : LabState :=
  { initialState with
    connections := [("b", "a")]
    selectedComponentId := some "a" }

/-- Witness for C9: clicking `b` while `a` is selected and the reversed
pair `("b", "a")` already exists rejects the duplicate and clears the
selection. -/
theorem handleComponentClick_cases_witness :
    handleComponentClick "b" clickState = { clickState with selectedComponentId := none } :=
  ((((handleComponentClick_cases clickState "b").2 "a" rfl (by decide)).2
      (by decide)).2) (Or.inr (by decide))

/-! ## C6 — component ids are pairwise distinct

The id template is `` `${type}-${Date.now()}-${componentCounter}` `` and
the module-level counter strictly increases on every `addComponent`.
The substring after the final dash of an id is the decimal counter, so
distinct counters give distinct ids. -/

/-- Reads a decimal digit string back to the number it denotes. -/
def charsToNat (l : List Char) : ℕ :=
  l.foldl (fun a c => 10 * a + (c.toNat - 48)) 0

theorem digitChar_toNat (d : ℕ) (h : d < 10) : (digitChar d).toNat = 48 + d := by
  interval_cases d <;> decide

theorem digitChar_ne_dash (d : ℕ) (h : d < 10) : digitChar d ≠ '-' := by
  interval_cases d <;> decide

theorem natChars_ne_dash (n : ℕ) : ∀ c ∈ natChars n, c ≠ '-' := by
  induction n using Nat.strong_induction_on with
  | _ n ih =>
    rw [natChars]
    by_cases h : n < 10
    · rw [dif_pos h]
      intro c hc
      have hce : c = digitChar n := by simpa using hc
      exact hce ▸ digitChar_ne_dash n h
    · rw [dif_neg h]
      intro c hc
      rcases List.mem_append.mp hc with h1 | h2
      · exact ih (n / 10) (Nat.div_lt_self (by omega) (by omega)) c h1
      · have hce : c = digitChar (n % 10) := by simpa using h2
        exact hce ▸ digitChar_ne_dash (n % 10) (Nat.mod_lt _ (by omega))

theorem charsToNat_natChars (n : ℕ) : charsToNat (natChars n) = n := by
  induction n using Nat.strong_induction_on with
  | _ n ih =>
    rw [natChars]
    by_cases h : n < 10
    · rw [dif_pos h]
      simp [charsToNat, digitChar_toNat n h]
    · rw [dif_neg h]
      have hlt : n / 10 < n := Nat.div_lt_self (by omega) (by omega)
      have hmod : n % 10 < 10 := Nat.mod_lt _ (by omega)
      have hih := ih (n / 10) hlt
      unfold charsToNat at hih ⊢
      rw [List.foldl_append, hih]
      simp [digitChar_toNat _ hmod]
      omega

theorem natChars_inj {a b : ℕ} (h : natChars a = natChars b) : a = b := by
  have hc := congrArg charsToNat h
  rwa [charsToNat_natChars, charsToNat_natChars] at hc

theorem takeWhile_all_append (p : Char → Bool) (l : List Char) (x : Char)
    (r : List Char) (hl : ∀ c ∈ l, p c = true) (hx : p x = false) :
    (l ++ x :: r).takeWhile p = l := by
  induction l with
  | nil => simp [List.takeWhile_cons, hx]
  | cons a l ih =>
    have ha := hl a (by simp)
    rw [List.cons_append, List.takeWhile_cons, ha]
    simp only [if_true]
    rw [ih (fun c hc => hl c (by simp [hc]))]

/-- The character run after the final dash of a character list. -/
def ctrTagL (l : List Char) : List Char :=
  (l.reverse.takeWhile (fun c => c != '-')).reverse

/-- The character run after the final dash of a string — for ids built
by `mkId`, the decimal counter. -/
def ctrTag (s : String) : List Char := ctrTagL s.data

theorem ctrTagL_append (u t : List Char) (ht : ∀ c ∈ t, c ≠ '-') :
    ctrTagL (u ++ '-' :: t) = t := by
  unfold ctrTagL
  rw [List.reverse_append, List.reverse_cons, List.append_assoc,
      List.singleton_append,
      takeWhile_all_append _ _ _ _
        (fun c hc => by simpa using ht c (List.mem_reverse.mp hc))
        (by decide),
      List.reverse_reverse]

theorem ctrTag_mkId (type : ComponentType) (now ctr : ℕ) :
    ctrTag (mkId type now ctr) = natChars ctr := by
  have hdata : (mkId type now ctr).data =
      ((typeStr type).data ++ '-' :: natChars now) ++ '-' :: natChars ctr := by
    simp [mkId, natStr, String.data_append]
  unfold ctrTag
  rw [hdata, ctrTagL_append _ _ (natChars_ne_dash ctr)]

/-- The operations C6 quantifies over: sequences of `addComponent` and
`removeComponent` calls. -/
inductive LabOp where
  | addC (type : ComponentType) (position : Position) (now : ℕ)
  | removeC (id : String)

/-- Runs one operation against the store. -/
def applyOp (op : LabOp) (s : LabState) : LabState :=
  match op with
  | LabOp.addC t pos now => addComponent t pos now s
  | LabOp.removeC id => removeComponent id s

/-- Runs a sequence of operations against the store, oldest first. -/
def applyOps (ops : List LabOp) (s : LabState) : LabState :=
  ops.foldl (fun s op => applyOp op s) s

/-- Invariant: every stored component's id carries a decimal counter at
most the current counter value after its final dash, and these counters
are pairwise distinct. -/
def idsTagged (s : LabState) : Prop :=
  (∀ c ∈ s.components, ∃ k, k ≤ s.componentCounter ∧ ctrTag c.id = natChars k) ∧
  s.components.Pairwise (fun a b => ctrTag a.id ≠ ctrTag b.id)

theorem idsTagged_addComponent (t : ComponentType) (pos : Position) (now : ℕ)
    (s : LabState) (h : idsTagged s) : idsTagged (addComponent t pos now s) := by
  obtain ⟨hbound, hpw⟩ := h
  constructor
  · intro c hc
    rcases List.mem_append.mp hc with hold | hnew
    · obtain ⟨k, hk, htag⟩ := hbound c hold
      refine ⟨k, ?_, htag⟩
      show k ≤ s.componentCounter + 1
      omega
    · have hce : c = { id := mkId t now (s.componentCounter + 1), type := t,
                       configuration := [], position := some pos } := by
        simpa using hnew
      exact ⟨s.componentCounter + 1, le_refl _, by rw [hce]; exact ctrTag_mkId t now _⟩
  · refine List.pairwise_append.mpr ⟨hpw, List.pairwise_singleton _ _, ?_⟩
    intro a ha b hb
    have hbe : b = { id := mkId t now (s.componentCounter + 1), type := t,
                     configuration := [], position := some pos } := by
      simpa using hb
    obtain ⟨k, hk, htag⟩ := hbound a ha
    rw [hbe]
    show ctrTag a.id ≠ ctrTag (mkId t now (s.componentCounter + 1))
    rw [htag, ctrTag_mkId]
    intro heq
    have := natChars_inj heq
    omega

theorem idsTagged_removeComponent (id : String) (s : LabState)
    (h : idsTagged s) : idsTagged (removeComponent id s) := by
  obtain ⟨hbound, hpw⟩ := h
  exact ⟨fun c hc => hbound c (List.mem_filter.mp hc).1,
         List.Pairwise.sublist (List.filter_sublist _) hpw⟩

theorem idsTagged_applyOps (ops : List LabOp) (s : LabState)
    (h : idsTagged s) : idsTagged (applyOps ops s) := by
  induction ops generalizing s with
  | nil => exact h
  | cons op ops ih =>
    show idsTagged (applyOps ops (applyOp op s))
    refine ih (applyOp op s) ?_
    cases op with
    | addC t pos now => exact idsTagged_addComponent t pos now s h
    | removeC id => exact idsTagged_removeComponent id s h

/-- C6: after any sequence of `addComponent` and `removeComponent` calls
starting from the initial store, the stored component ids are pairwise
distinct — each id embeds the strictly increasing module-level counter
after its final dash. -/
theorem component_ids_unique (ops : List LabOp) :
    ((applyOps ops initialState).components).Pairwise
      (fun a b => a.id ≠ b.id) := by
  have hinit : idsTagged initialState := by
    constructor
    · intro c hc
      simp [initialState] at hc
    · simp [initialState]
  have h := idsTagged_applyOps ops initialState hinit
  exact h.2.imp (fun hne heq => hne (by rw [heq]))

/-! ## C2 — goal noninterference of the simulation engine

The simulation engine itself is backend code that is not part of this
tree; only the specification describes it.  The definitions below are
therefore modelled from the spec (§3, §4.1, §4.2): where the spec leaves
a constant open (size-penalty amounts and thresholds, the linear cost
scale) a representative default is chosen; the goal-noninterference
property does not depend on those constants. -/

/-- Modelled from the spec: the `category` enum of a catalog profile
(§3); the backend catalog source is missing from this tree. -/
inductive ProfileCategory where
  | compute | storage | database | cache | cdn | networking
  | messaging | security | platform | generic
  deriving DecidableEq, Repr

/-- Modelled from the spec: `ComponentProfile`, one immutable catalog
entry per kind (§3); the backend catalog source is missing from this
tree. -/
structure ComponentProfile where
  kind : String
  base_latency_ms : ℚ
  base_monthly_cost : ℚ
  category : ProfileCategory
  scalability_ceiling : Option ℕ
  latency_reduction_factor : Option ℚ
  deriving DecidableEq, Repr

/-- Modelled from the spec: the fixed-order catalog (§4.1, ≈17 entries);
baselines follow the palette table, the cache factor cuts 60% and the
CDN factor 50% of total latency, and the relational database carries the
ceiling 60 (§4.2 examples). -/
def catalogList : List ComponentProfile :=
  [ { kind := "lambda", base_latency_ms := 15, base_monthly_cost := 5,
      category := ProfileCategory.compute,
      scalability_ceiling := none, latency_reduction_factor := none },
    { kind := "s3", base_latency_ms := 10, base_monthly_cost := 3,
      category := ProfileCategory.storage,
      scalability_ceiling := none, latency_reduction_factor := none },
    { kind := "dynamodb", base_latency_ms := 8, base_monthly_cost := 8,
      category := ProfileCategory.database,
      scalability_ceiling := none, latency_reduction_factor := none },
    { kind := "cloudfront", base_latency_ms := 5, base_monthly_cost := 10,
      category := ProfileCategory.cdn,
      scalability_ceiling := none, latency_reduction_factor := some (1 / 2) },
    { kind := "api_gateway", base_latency_ms := 12, base_monthly_cost := 5,
      category := ProfileCategory.platform,
      scalability_ceiling := none, latency_reduction_factor := none },
    { kind := "amplify", base_latency_ms := 8, base_monthly_cost := 15,
      category := ProfileCategory.platform,
      scalability_ceiling := none, latency_reduction_factor := none },
    { kind := "rds", base_latency_ms := 20, base_monthly_cost := 120,
      category := ProfileCategory.database,
      scalability_ceiling := some 60, latency_reduction_factor := none },
    { kind := "elasticache", base_latency_ms := 3, base_monthly_cost := 50,
      category := ProfileCategory.cache,
      scalability_ceiling := none, latency_reduction_factor := some (2 / 5) },
    { kind := "sqs", base_latency_ms := 10, base_monthly_cost := 3,
      category := ProfileCategory.messaging,
      scalability_ceiling := none, latency_reduction_factor := none },
    { kind := "sns", base_latency_ms := 8, base_monthly_cost := 3,
      category := ProfileCategory.messaging,
      scalability_ceiling := none, latency_reduction_factor := none },
    { kind := "load_balancer", base_latency_ms := 5, base_monthly_cost := 20,
      category := ProfileCategory.networking,
      scalability_ceiling := none, latency_reduction_factor := none },
    { kind := "compute_node", base_latency_ms := 2, base_monthly_cost := 40,
      category := ProfileCategory.compute,
      scalability_ceiling := none, latency_reduction_factor := none },
    { kind := "vpc", base_latency_ms := 0, base_monthly_cost := 0,
      category := ProfileCategory.platform,
      scalability_ceiling := none, latency_reduction_factor := none },
    { kind := "subnet", base_latency_ms := 0, base_monthly_cost := 0,
      category := ProfileCategory.platform,
      scalability_ceiling := none, latency_reduction_factor := none },
    { kind := "security_group", base_latency_ms := 0, base_monthly_cost := 0,
      category := ProfileCategory.security,
      scalability_ceiling := none, latency_reduction_factor := none },
    { kind := "nat_gateway", base_latency_ms := 5, base_monthly_cost := 35,
      category := ProfileCategory.platform,
      scalability_ceiling := none, latency_reduction_factor := none },
    { kind := "internet_gateway", base_latency_ms := 3, base_monthly_cost := 0,
      category := ProfileCategory.platform,
      scalability_ceiling := none, latency_reduction_factor := none } ]

/-- Modelled from the spec: the catalog lookup contract (§4.1). -/
def lookupKind (kind : String) : Option ComponentProfile :=
  catalogList.find? (fun p => p.kind == kind)

/-- Modelled from the spec: an engine-input component (§6). -/
structure EngineComponent where
  id : String
  kind : String
  configuration : List (String × String)
  deriving DecidableEq, Repr

/-- Modelled from the spec: an engine-input graph (§6). -/
structure EngineGraph where
  components : List EngineComponent
  connections : List (String × String)
  deriving DecidableEq, Repr

/-- Modelled from the spec: the validation error taxonomy (§7). -/
inductive SimError where
  | UnknownComponentKind (kind : String)
  | DanglingConnection (id : String)
  deriving DecidableEq, Repr

/-- Modelled from the spec: the fail-fast validation pass (§4.2 step 1):
every kind must resolve against the catalog and every connection
endpoint against the component id set. -/
def validateGraph (g : EngineGraph) : Except SimError Unit :=
  match g.components.find? (fun c => (lookupKind c.kind).isNone) with
  | some c => Except.error (SimError.UnknownComponentKind c.kind)
  | none =>
    match g.connections.find? (fun p =>
        !(g.components.any (fun c => c.id == p.1)) ||
        !(g.components.any (fun c => c.id == p.2))) with
    | some p =>
      Except.error (SimError.DanglingConnection
        (if g.components.any (fun c => c.id == p.1) then p.2 else p.1))
    | none => Except.ok ()

/-- The resolved profiles of a graph's components, in graph order. -/
def profilesOf (g : EngineGraph) : List ComponentProfile :=
  g.components.filterMap (fun c => lookupKind c.kind)

/-- Modelled from the spec: §4.2 step 2 — sum of base latencies, plus
the deterministic expected cold-start penalty of 100 ms × 10% per
serverless compute component, plus 2 ms per connection, then the
multiplicative cache/CDN reductions applied in fixed catalog order, and
a clamp at 0. -/
def latencyOf (g : EngineGraph) : ℚ :=
  let base := (profilesOf g).foldl (fun a p => a + p.base_latency_ms) 0
  let coldStarts := (profilesOf g).countP
    (fun p => p.category == ProfileCategory.compute && p.kind == "lambda")
  let hops : ℚ := 2 * g.connections.length
  let reduction := catalogList.foldl
    (fun acc e =>
      match e.latency_reduction_factor with
      | some f => acc * f ^ (g.components.countP (fun c => c.kind == e.kind))
      | none => acc) 1
  max 0 ((base + coldStarts * 100 * (1 / 10) + hops) * reduction)

/-- Modelled from the spec: §4.2 step 3 — the worst ceiling present in
the graph, starting from 100. -/
def ceilingCap (g : EngineGraph) : ℕ :=
  (profilesOf g).foldl
    (fun a p =>
      match p.scalability_ceiling with
      | some c => min a c
      | none => a) 100

/-- Modelled from the spec: §4.2 step 3 — ceiling capping, then a size
penalty (default: 2 per component beyond 5 free, 1 per connection
beyond 5 free; the exact amounts are unspecified), then a +10 resilience
bonus for a load-balancer or message-queue category component capped at
the ceiling, clamped to [0, 100]. -/
def scalabilityOf (g : EngineGraph) : ℤ :=
  let capd : ℤ := min 100 (ceilingCap g : ℤ)
  let compPenalty : ℤ := (2 * (g.components.length - 5) : ℕ)
  let connPenalty : ℤ := (1 * (g.connections.length - 5) : ℕ)
  let afterPenalty := capd - compPenalty - connPenalty
  let hasResilience := (profilesOf g).any
    (fun p => p.category == ProfileCategory.networking ||
              p.category == ProfileCategory.messaging)
  let withBonus :=
    if hasResilience then min (afterPenalty + 10) (ceilingCap g : ℤ)
    else afterPenalty
  min 100 (max 0 withBonus)

/-- Modelled from the spec: §4.2 step 4 — `raw = 10 + 8 × expensive +
3 × cheap` where expensive is a base monthly cost of at least 30, cheap
is a positive cost below 30, and free-tier components contribute nothing
(the free-tier floor of §4.2); the linear scale is the identity clamped
at 100. -/
def costOf (g : EngineGraph) : ℤ :=
  let expensive := (profilesOf g).countP (fun p => decide (30 ≤ p.base_monthly_cost))
  let cheap := (profilesOf g).countP
    (fun p => decide (0 < p.base_monthly_cost ∧ p.base_monthly_cost < 30))
  min (10 + 8 * (expensive : ℤ) + 3 * (cheap : ℤ)) 100

/-- Modelled from the spec: the goal-specific framing of the
explanation (§4.2 step 5, §4.3). -/
def goalPhrase : SimulationGoal → String
  | SimulationGoal.low_latency => "optimized for low latency"
  | SimulationGoal.high_availability => "optimized for high availability"
  | SimulationGoal.low_cost => "optimized for low cost"

/-- Modelled from the spec: the dominant-bottleneck reference of the
explanation formatter (§4.3). -/
def bottleneckPhrase (g : EngineGraph) : String :=
  match (profilesOf g).find? (fun p => p.scalability_ceiling.isSome) with
  | some p => ", bottleneck: " ++ p.kind
  | none => ""

/-- Modelled from the spec: the explanation formatter (§4.3); only here
does the goal enter. -/
def explain (goal : SimulationGoal) (g : EngineGraph) : String :=
  "Architecture " ++ goalPhrase goal ++ bottleneckPhrase g ++ "."

/-- Modelled from the spec: the engine's output record (§3). -/
structure ScoreReport where
  latency_ms : ℚ
  scalability : ℤ
  cost_index : ℤ
  explanation : String
  deriving DecidableEq, Repr

/-- Modelled from the spec: `simulate(graph, goal)` (§4.2) —
validation, then the three goal-independent scores, then the
goal-dependent explanation. -/
def simulate (g : EngineGraph) (goal : SimulationGoal) : Except SimError ScoreReport :=
  match validateGraph g with
  | Except.error e => Except.error e
  | Except.ok _ =>
    Except.ok
      { latency_ms := latencyOf g
        scalability := scalabilityOf g
        cost_index := costOf g
        explanation := explain goal g }

/-- The three numeric scores of a report, without the explanation. -/
def reportScores (r : ScoreReport) : ℚ × ℤ × ℤ :=
  (r.latency_ms, r.scalability, r.cost_index)

/-- C2: for a fixed graph, `simulate` yields identical latency,
scalability and cost scores across all goal values (and the same
validation error when it fails); only the explanation text may
differ. -/
theorem simulate_goal_noninterference (g : EngineGraph)
    (goal1 goal2 : SimulationGoal) :
    Except.map reportScores (simulate g goal1) =
      Except.map reportScores (simulate g goal2) := by
  unfold simulate
  cases validateGraph g <;> rfl

/-- Sanity check of the model against the spec's empty-graph edge case
(§4.2): validation passes, latency 0, scalability 100, cost index 10. -/
theorem simulate_empty :
    validateGraph { components := [], connections := [] } = Except.ok () ∧
    latencyOf { components := [], connections := [] } = 0 ∧
    scalabilityOf { components := [], connections := [] } = 100 ∧
    costOf { components := [], connections := [] } = 10 := by
  refine ⟨rfl, ?_, by decide, by decide⟩
  simp [latencyOf, profilesOf]
